import Mathlib

/-!
# Verification of the twitter-analytics synchronization / cache-consistency layer

Shallow embedding of the persistent store (`database.py`), the official API
adapter (`twitter_api_adapter.py`) and the cache-first controller
(`twitter_live_api.py`).

Modelling conventions:
* Timestamps (`datetime` values) are rationals counting **minutes** since
  `datetime.min`; a cache age `delta.total_seconds() / 60` therefore becomes
  the plain difference `now - t`.
* Python dicts flowing through the pipeline become structures whose fields are
  `Option`-typed where the source reads them with a bare `.get(key)`; a
  `.get(key, default)` read becomes `Option.getD`.
* Twitter date strings are carried already parsed (`Option ℚ`): the two
  `strptime` formats of `_parse_twitter_date` either succeed (some timestamp)
  or fail soft (`none`), which is all the synchronization layer observes.
* MongoDB collections are lists of documents; the unique indexes of
  `_setup_indexes` appear as `countP`-uniqueness hypotheses where a claim
  needs them.  `UpdateOne` with `upsert=True` updates the first matching
  document or appends a fresh one; `$set` overwrites exactly the listed
  fields, `$setOnInsert` writes only on insert.
-/

namespace TwitterAnalytics

/-- Metric block of a live (API v2) tweet: `public_metrics` read with
`.get(name, 0)` everywhere, so the fields are total. -/
structure PublicMetrics where
  likeCount : Int
  retweetCount : Int
  replyCount : Int
  quoteCount : Int
  bookmarkCount : Int
  impressionCount : Int
deriving DecidableEq

/-- A tweet in the Live API shape: `{id, text, created_at, public_metrics}`. -/
structure LiveTweet where
  id : Option String
  text : Option String
  createdAt : Option ℚ
  metrics : PublicMetrics
deriving DecidableEq

/-- A tweet in the archive shape (the payload under the `tweet` key);
`favorite_count`/`retweet_count` appear after the source's `int(...)`
conversion, `hasInReplyTo` models `'in_reply_to_status_id' in tweet`. -/
structure ArchiveTweet where
  idStr : Option String
  createdAt : Option ℚ
  fullText : Option String
  favoriteCount : Int
  retweetCount : Int
  hasInReplyTo : Bool
  retweeted : Bool
deriving DecidableEq

/-- An entry of the archive `tweets.js` array: `{'tweet': {...}}`. -/
structure ArchiveEntry where
  tweet : ArchiveTweet
deriving DecidableEq

/-- A user record in the Live API shape, as consumed by
`save_live_connections`; `public_metrics` is passed through opaquely, modelled
as an association list. -/
structure ConnUser where
  id : Option String
  username : Option String
  name : Option String
  createdAt : Option String
  publicMetrics : Option (List (String × Int))
  profileImageUrl : Option String
  verified : Bool
deriving DecidableEq

/-- A document of the `tweets` collection.  MongoDB documents are schemaless:
archive ingestion and live ingestion write different field sets, so every
field either path may leave absent is `Option`-typed (with `none` = key
absent). -/
structure TweetDoc where
  userId : String
  tweetId : Option String
  createdAt : Option ℚ
  fullText : Option String
  favoriteCount : Option Int
  retweetCount : Option Int
  replyCount : Option Int
  quoteCount : Option Int
  bookmarkCount : Option Int
  impressionCount : Option Int
  isReply : Option Bool
  isRetweet : Option Bool
  isStartReply : Option Bool
  uploadedAt : Option ℚ
  insertedAt : Option ℚ
  updatedAt : Option ℚ
deriving DecidableEq

/-- The all-absent document: what a fresh upsert starts from before `$set` /
`$setOnInsert` write their fields (the filter keys are re-written by every
update document, so the placeholder `userId` is never observed). -/
def TweetDoc.empty : TweetDoc :=
  ⟨"", none, none, none, none, none, none, none, none, none, none, none, none,
   none, none, none⟩

/-- A document of the `connections` collection (written only by
`save_live_connections`, which sets every field). -/
structure ConnDoc where
  userId : String
  connectionId : Option String
  type : String
  username : Option String
  name : Option String
  joinedAt : Option String
  publicMetrics : List (String × Int)
  profileImageUrl : Option String
  verified : Bool
  updatedAt : Option ℚ
deriving DecidableEq

/-- A document of the `api_cache` collection: `{user_id, endpoint, data,
updated_at}` where the stored payload is the `{'count': n}` summary. -/
structure CacheDoc where
  userId : String
  endpoint : String
  data : Nat
  updatedAt : Option ℚ
deriving DecidableEq

/-- A document of the `user_data` collection (archive upload summaries). -/
structure UploadDoc where
  userId : String
  uploadDate : ℚ
  totalTweets : Nat
  totalFollowers : Nat
  totalFollowing : Nat
  totalLikes : Nat
  accountInfo : List (String × String)
  profileInfo : List (String × String)
deriving DecidableEq

/-- The `data` dict handed to `save_user_upload`. -/
structure UploadData where
  tweets : List ArchiveEntry
  followers : List String
  following : List String
  likes : List String
  account : List (String × String)
  profile : List (String × String)
deriving DecidableEq

/-- Input to `create_or_update_user`. -/
structure UserInfo where
  id : Option String
  username : Option String
  name : Option String
  profileImageUrl : Option String
  verified : Bool
  accessToken : Option String
  refreshToken : Option String
deriving DecidableEq

/-- A document of the `users` collection. -/
structure UserDoc where
  twitterId : Option String
  username : Option String
  name : Option String
  profileImageUrl : Option String
  verified : Bool
  accessToken : Option String
  refreshToken : Option String
  lastLogin : ℚ
  updatedAt : ℚ
  createdAt : Option ℚ
deriving DecidableEq

/-- The state of the MongoDB `Database` handler: the connectivity flag set at
construction plus the logical collections. -/
structure DB where
  connected : Bool
  users : List UserDoc
  userData : List UploadDoc
  tweets : List TweetDoc
  connections : List ConnDoc
  apiCache : List CacheDoc
deriving DecidableEq

/-! ## Generic MongoDB operation models -/

/-- `UpdateOne(filter, update)` without upsert applied to a cursor: rewrite the
first document matching `p` with `f` and report whether the rewrite changed
it; `none` when nothing matched. -/
def updateFirst (p : α → Bool) (f : α → α) [DecidableEq α] :
    List α → Option (List α × Bool)
  | [] => none
  | a :: l =>
    if p a then some (f a :: l, decide (f a ≠ a))
    else (updateFirst p f l).map (fun r => (a :: r.1, r.2))

/-- `UpdateOne(filter, {'$set': doc}, upsert=True)`: update the first match
with `f`, or append the freshly built document `ins`; the returned count is
the op's contribution to `upserted_count + modified_count`. -/
def setUpsert (p : α → Bool) (f : α → α) (ins : α) [DecidableEq α]
    (coll : List α) : List α × Nat :=
  match updateFirst p f coll with
  | some (coll', changed) => (coll', if changed then 1 else 0)
  | none => (coll ++ [ins], 1)

/-- `UpdateOne(filter, {'$setOnInsert': doc}, upsert=True)`: a no-op when the
key matches an existing document, an insert otherwise; the count is the op's
contribution to `upserted_count`. -/
def setOnInsertUpsert (p : α → Bool) (ins : α) (coll : List α) :
    List α × Nat :=
  if coll.any p then (coll, 0) else (coll ++ [ins], 1)

/-- `cursor.limit(n)`: MongoDB treats `limit(0)` as "no limit". -/
def mongoLimit (n : Nat) (l : List α) : List α :=
  if n = 0 then l else l.take n

/-- Comparison on possibly-absent timestamps with MongoDB's ordering of
nulls/missing below every concrete value. -/
def optTimeLe (a b : Option ℚ) : Bool :=
  match a, b with
  | none, _ => true
  | some _, none => false
  | some x, some y => decide (x ≤ y)

/-- `find_one(filter, sort=[(ts, -1)])` on an already-filtered cursor: the
document whose `ts` field is greatest (missing field = null = smallest). -/
def findLatestBy (ts : α → Option ℚ) : List α → Option α
  | [] => none
  | a :: l =>
    match findLatestBy ts l with
    | none => some a
    | some b => if optTimeLe (ts b) (ts a) then some a else some b

/-- Sort key for `sort('created_at', -1)`: newest first, nulls last. -/
def createdDesc (a b : TweetDoc) : Prop :=
  optTimeLe b.createdAt a.createdAt = true

instance : DecidableRel createdDesc := fun a b =>
  decEq (optTimeLe b.createdAt a.createdAt) true

/-- Sort key for `sort('created_at', 1)`: oldest first, nulls first. -/
def createdAsc (a b : TweetDoc) : Prop :=
  optTimeLe a.createdAt b.createdAt = true

instance : DecidableRel createdAsc := fun a b =>
  decEq (optTimeLe a.createdAt b.createdAt) true

/-! ## Persistent store operations (`database.py`, class `Database`) -/

/-- Does a `tweets` document carry the key `(user_id, tweet_id)`? -/
def tweetKey (uid : String) (tid : Option String) (d : TweetDoc) : Bool :=
  d.userId == uid && d.tweetId == tid

/-- The document written by `save_live_tweets` for one Live API tweet
(`tweet_doc` of `database.py:169-182`); `inserted_at` is `datetime.now()`. -/
def liveTweetDoc (uid : String) (t : LiveTweet) (now : ℚ) : TweetDoc :=
  { TweetDoc.empty with
    userId := uid
    tweetId := t.id
    createdAt := t.createdAt
    fullText := t.text
    favoriteCount := some t.metrics.likeCount
    retweetCount := some t.metrics.retweetCount
    replyCount := some t.metrics.replyCount
    quoteCount := some t.metrics.quoteCount
    bookmarkCount := some t.metrics.bookmarkCount
    impressionCount := some t.metrics.impressionCount
    isStartReply := some ((t.text.getD "").startsWith "@")
    insertedAt := some now }

/-- One bulk-write operation of `save_live_tweets`, threaded through the
collection together with the running `upserted_count`. -/
def saveLiveTweetsStep (uid : String) (now : ℚ)
    (acc : List TweetDoc × Nat) (t : LiveTweet) : List TweetDoc × Nat :=
  let r := setOnInsertUpsert (tweetKey uid t.id) (liveTweetDoc uid t now) acc.1
  (r.1, acc.2 + r.2)

/-- `Database.save_live_tweets`: `$setOnInsert` upsert per tweet on the key
`(user_id, tweet_id)`, via one unordered `bulk_write`; returns the new store
and `result.upserted_count`. -/
def saveLiveTweets (db : DB) (uid : String) (tweetsData : List LiveTweet)
    (now : ℚ) : DB × Nat :=
  if !db.connected || tweetsData.isEmpty then (db, 0)
  else
    let res := tweetsData.foldl (saveLiveTweetsStep uid now) (db.tweets, 0)
    ({ db with tweets := res.1 }, res.2)

/-- The `$set` document of `Database.save_tweets` (archive path), applied to an
existing document: exactly the listed fields are overwritten, everything else
is preserved (MongoDB `$set` semantics); `uploaded_at` is `datetime.now()`. -/
def applyArchiveSet (uid : String) (t : ArchiveTweet) (now : ℚ)
    (d : TweetDoc) : TweetDoc :=
  { d with
    userId := uid
    tweetId := t.idStr
    createdAt := t.createdAt
    fullText := some (t.fullText.getD "")
    favoriteCount := some t.favoriteCount
    retweetCount := some t.retweetCount
    isReply := some t.hasInReplyTo
    isRetweet := some t.retweeted
    uploadedAt := some now }

/-- One bulk-write operation of `save_tweets`, threaded through the
collection together with the running `upserted_count + modified_count`. -/
def saveTweetsStep (uid : String) (now : ℚ)
    (acc : List TweetDoc × Nat) (e : ArchiveEntry) : List TweetDoc × Nat :=
  let t := e.tweet
  let r := setUpsert (tweetKey uid t.idStr) (applyArchiveSet uid t now)
    (applyArchiveSet uid t now TweetDoc.empty) acc.1
  (r.1, acc.2 + r.2)

/-- `Database.save_tweets` (archive upload): full-overwrite `$set` upsert per
entry on the key `(user_id, tweet_id)`; returns the new store and
`result.upserted_count + result.modified_count`. -/
def saveTweets (db : DB) (uid : String) (tweetsData : List ArchiveEntry)
    (now : ℚ) : DB × Nat :=
  if !db.connected then (db, 0)
  else
    let res := tweetsData.foldl (saveTweetsStep uid now) (db.tweets, 0)
    ({ db with tweets := res.1 }, res.2)

/-- The Live-API-shaped view `get_saved_tweets` maps a stored document back to
(`database.py:214-225`); the mapped dict carries no `bookmark_count` key, so a
reader's `.get('bookmark_count', 0)` yields `0`. -/
def savedTweetView (d : TweetDoc) : LiveTweet :=
  { id := d.tweetId
    text := d.fullText
    createdAt := d.createdAt
    metrics :=
      { likeCount := d.favoriteCount.getD 0
        retweetCount := d.retweetCount.getD 0
        replyCount := d.replyCount.getD 0
        quoteCount := d.quoteCount.getD 0
        bookmarkCount := 0
        impressionCount := d.impressionCount.getD 0 } }

/-- `Database.get_saved_tweets`: the user's tweets, newest first, limited, and
mapped back to the Live API shape; `[]` when disconnected. -/
def getSavedTweets (db : DB) (uid : String) (limit : Nat) : List LiveTweet :=
  if !db.connected then []
  else
    (mongoLimit limit
      (List.insertionSort createdDesc
        (db.tweets.filter (fun d => d.userId == uid)))).map savedTweetView

/-- `Database.get_growth_data`: tweets of the user from the last `days` days
(cutoff `now - days` expressed in minutes), oldest first; `None` when
disconnected.  A document with a null/missing `created_at` does not satisfy
the `$gte` filter. -/
def getGrowthData (db : DB) (uid : String) (days : Nat) (now : ℚ) :
    Option (List TweetDoc) :=
  if !db.connected then none
  else
    let cutoff := now - days * 1440
    some (List.insertionSort createdAsc
      (db.tweets.filter (fun d =>
        d.userId == uid &&
          match d.createdAt with
          | some c => decide (cutoff ≤ c)
          | none => false)))

/-- `Database.save_user_upload`: a plain `insert_one` into `user_data`,
returning the inserted id (modelled as the insertion position); `None` when
disconnected. -/
def saveUserUpload (db : DB) (uid : String) (data : UploadData) (now : ℚ) :
    DB × Option Nat :=
  if !db.connected then (db, none)
  else
    let doc : UploadDoc :=
      { userId := uid
        uploadDate := now
        totalTweets := data.tweets.length
        totalFollowers := data.followers.length
        totalFollowing := data.following.length
        totalLikes := data.likes.length
        accountInfo := data.account
        profileInfo := data.profile }
    ({ db with userData := db.userData ++ [doc] }, some db.userData.length)

/-- Sort key for `sort('upload_date', -1)`. -/
def uploadDateDesc (a b : UploadDoc) : Prop := b.uploadDate ≤ a.uploadDate

instance : DecidableRel uploadDateDesc := fun a b =>
  inferInstanceAs (Decidable (b.uploadDate ≤ a.uploadDate))

/-- `Database.get_user_uploads`: upload summaries, newest first, limited;
`[]` when disconnected. -/
def getUserUploads (db : DB) (uid : String) (limit : Nat) : List UploadDoc :=
  if !db.connected then []
  else
    mongoLimit limit
      (List.insertionSort uploadDateDesc
        (db.userData.filter (fun d => d.userId == uid)))

/-- The connection document written by `save_live_connections` for one user
record (`conn_doc` of `database.py:527-538`). -/
def connDocOf (uid : String) (u : ConnUser) (connType : String) (now : ℚ) :
    ConnDoc :=
  { userId := uid
    connectionId := u.id
    type := connType
    username := u.username
    name := u.name
    joinedAt := u.createdAt
    publicMetrics := u.publicMetrics.getD []
    profileImageUrl := u.profileImageUrl
    verified := u.verified
    updatedAt := some now }

/-- Key predicate of the `connections` unique index
`(user_id, type, connection_id)`. -/
def connKey (uid : String) (cid : Option String) (connType : String)
    (d : ConnDoc) : Bool :=
  d.userId == uid && d.connectionId == cid && d.type == connType

/-- `Database.save_live_connections`: full-overwrite `$set` upsert per user
record on the composite key; returns the new store and
`upserted_count + modified_count`. -/
def saveLiveConnections (db : DB) (uid : String) (usersList : List ConnUser)
    (connType : String) (now : ℚ) : DB × Nat :=
  if !db.connected || usersList.isEmpty then (db, 0)
  else
    let step := fun (acc : List ConnDoc × Nat) (u : ConnUser) =>
      let doc := connDocOf uid u connType now
      let r := setUpsert (connKey uid u.id connType) (fun _ => doc) doc acc.1
      (r.1, acc.2 + r.2)
    let res := usersList.foldl step (db.connections, 0)
    ({ db with connections := res.1 }, res.2)

/-- The API-shaped view `get_saved_connections` maps a stored connection back
to (`database.py:572-580`). -/
def savedConnView (d : ConnDoc) : ConnUser :=
  { id := d.connectionId
    username := d.username
    name := d.name
    createdAt := d.joinedAt
    publicMetrics := some d.publicMetrics
    profileImageUrl := d.profileImageUrl
    verified := d.verified }

/-- `Database.get_saved_connections`: the user's stored connections of one
relation type (unsorted `find`), limited, mapped back; `[]` when
disconnected. -/
def getSavedConnections (db : DB) (uid : String) (connType : String)
    (limit : Nat) : List ConnUser :=
  if !db.connected then []
  else
    (mongoLimit limit
      (db.connections.filter (fun d => d.userId == uid && d.type == connType))).map
      savedConnView

/-- `Database.save_live_api_response`: `$set` upsert of the `{'count': n}`
summary on the `api_cache` key `(user_id, endpoint)`; `None` when
disconnected, `True` on success. -/
def saveLiveApiResponse (db : DB) (uid : String) (endpoint : String)
    (data : Nat) (now : ℚ) : DB × Option Bool :=
  if !db.connected then (db, none)
  else
    let doc : CacheDoc :=
      { userId := uid, endpoint := endpoint, data := data, updatedAt := some now }
    let r := setUpsert (fun c => c.userId == uid && c.endpoint == endpoint)
      (fun _ => doc) doc db.apiCache
    ({ db with apiCache := r.1 }, some true)

/-- `Database.get_live_api_response`: the cached payload for
`(user_id, endpoint)`; `None` when disconnected or absent. -/
def getLiveApiResponse (db : DB) (uid : String) (endpoint : String) :
    Option Nat :=
  if !db.connected then none
  else
    match db.apiCache.find? (fun c => c.userId == uid && c.endpoint == endpoint) with
    | some doc => some doc.data
    | none => none

/-- `datetime.min`, the default of `meta.get('updated_at', datetime.min)`:
the origin of the minute scale. -/
def dateTimeMin : ℚ := 0

/-- `Database.get_cache_age`: minutes since the freshest `updated_at` among
the stored records of `(user_id, endpoint)`, falling back to the `api_cache`
metadata, and to the sentinel `999999` when disconnected or nothing is on
file.  Live/archive tweet documents never carry `updated_at`, so for
`recent_tweets` the `'updated_at' in latest_doc` test can succeed only on a
document some other writer supplied. -/
def getCacheAge (db : DB) (uid : String) (endpoint : String) (now : ℚ) : ℚ :=
  if !db.connected then 999999
  else
    let latestUpdated : Option ℚ :=
      if endpoint == "recent_tweets" then
        match findLatestBy (fun d => d.updatedAt)
          (db.tweets.filter (fun d => d.userId == uid)) with
        | some d => d.updatedAt
        | none => none
      else if endpoint == "followers" || endpoint == "following" then
        match findLatestBy (fun d => d.updatedAt)
          (db.connections.filter (fun d => d.userId == uid && d.type == endpoint)) with
        | some d => d.updatedAt
        | none => none
      else none
    match latestUpdated with
    | some t => now - t
    | none =>
      match db.apiCache.find? (fun c => c.userId == uid && c.endpoint == endpoint) with
      | some meta => now - meta.updatedAt.getD dateTimeMin
      | none => 999999

/-- The user document written by `create_or_update_user`. -/
def userDocOf (info : UserInfo) (now : ℚ) (createdAt : Option ℚ) : UserDoc :=
  { twitterId := info.id
    username := info.username
    name := info.name
    profileImageUrl := info.profileImageUrl
    verified := info.verified
    accessToken := info.accessToken
    refreshToken := info.refreshToken
    lastLogin := now
    updatedAt := now
    createdAt := createdAt }

/-- `Database.create_or_update_user`: `$set` + `$setOnInsert created_at`
upsert on `twitter_id`, then `find_one` of the resulting document; `None`
when disconnected. -/
def createOrUpdateUser (db : DB) (info : UserInfo) (now : ℚ) :
    DB × Option UserDoc :=
  if !db.connected then (db, none)
  else
    let r := setUpsert (fun u => u.twitterId == info.id)
      (fun old => userDocOf info now old.createdAt)
      (userDocOf info now (some now)) db.users
    let db' := { db with users := r.1 }
    (db', db'.users.find? (fun u => u.twitterId == info.id))

/-- `Database.get_user_by_twitter_id`; `None` when disconnected. -/
def getUserByTwitterId (db : DB) (twitterId : Option String) :
    Option UserDoc :=
  if !db.connected then none
  else db.users.find? (fun u => u.twitterId == twitterId)

/-- `Database.is_connected`. -/
def isConnected (db : DB) : Bool := db.connected

/-! ## Official API adapter (`twitter_api_adapter.py`, `OfficialTwitterAPI`) -/

/-- Credential state of the adapter: bearer token plus optional refresh
credential. -/
structure OApiState where
  accessToken : String
  refreshToken : Option String
deriving DecidableEq

/-- The dict returned by `auth.refresh_access_token`. -/
structure OAuthTokens where
  accessToken : String
  refreshToken : Option String
deriving DecidableEq

/-- An HTTP response as seen by `_make_request`: status code and the parsed
JSON payload (`response.json()`), whose shape `α` depends on the endpoint. -/
structure HttpResponse (α : Type) where
  status : Nat
  json : α
deriving DecidableEq

/-- `OfficialTwitterAPI._refresh_access_token`.  `refreshOutcome` models one
call of `auth.refresh_access_token` (returning `none` on failure or
exception).  Returns the new credential state, whether refresh succeeded, and
how many refresh calls were issued (`0` exactly when no refresh credential
exists, since the source returns `False` before calling `auth`). -/
def refreshAccessToken (refreshOutcome : String → Option OAuthTokens)
    (api : OApiState) : OApiState × Bool × Nat :=
  match api.refreshToken with
  | none => (api, false, 0)
  | some rt =>
    match refreshOutcome rt with
    | some toks =>
      ({ accessToken := toks.accessToken,
         refreshToken := some (toks.refreshToken.getD rt) }, true, 1)
    | none => (api, false, 1)

/-- The `200 / 429 / other` tail of `_make_request`: only a 200 yields the
JSON payload; a rate limit (429) or any other status yields `None` after a
warning. -/
def finishResponse (resp : HttpResponse α) : Option α :=
  if resp.status = 200 then some resp.json else none

/-- `OfficialTwitterAPI._make_request`.  `send` models
`requests.request(method, url, headers, params)` as a function of the bearer
token currently in the headers (an exception becomes `.error`).  Returns the
credential state, the `Optional[Dict]` result, and the number of
refresh-and-retry attempts performed. -/
def makeRequest (send : String → Except String (HttpResponse α))
    (refreshOutcome : String → Option OAuthTokens) (api : OApiState) :
    OApiState × Option α × Nat :=
  match send api.accessToken with
  | .error _ => (api, none, 0)
  | .ok resp =>
    if resp.status = 401 then
      let r := refreshAccessToken refreshOutcome api
      if r.2.1 then
        match send r.1.accessToken with
        | .error _ => (r.1, none, r.2.2)
        | .ok resp2 => (r.1, finishResponse resp2, r.2.2)
      else (r.1, none, r.2.2)
    else (api, finishResponse resp, 0)

/-- One page of `/users/{id}/tweets` as `_make_request` returns it: the
`data` array when the key is present, and `meta.next_token`. -/
structure TweetsPage where
  data : Option (List LiveTweet)
  nextToken : Option String
deriving DecidableEq

/-- The `for _ in range(max_pages)` pagination loop of
`OfficialTwitterAPI.get_recent_tweets`: fetch a page for the current
continuation token, accumulate, advance the token, stop on an absent token, a
failed request, or a missing `data` key — and unconditionally after the fuel
(`max_pages`) runs out.  Also counts the requests issued. -/
def recentTweetsLoop (fetchPage : Option String → Option TweetsPage) :
    Nat → Option String → List LiveTweet → List LiveTweet × Nat
  | 0, _, acc => (acc, 0)
  | fuel + 1, tok, acc =>
    match fetchPage tok with
    | some page =>
      match page.data with
      | some items =>
        match page.nextToken with
        | none => (acc ++ items, 1)
        | some t =>
          let r := recentTweetsLoop fetchPage fuel (some t) (acc ++ items)
          (r.1, r.2 + 1)
      | none => (acc, 1)
    | none => (acc, 1)

/-- `max_pages = 32  # Up to 3,200 tweets`. -/
def maxPages : Nat := 32

/-- `OfficialTwitterAPI.get_recent_tweets`, pagination structure: the result
list and the number of page requests. -/
def officialGetRecentTweets (fetchPage : Option String → Option TweetsPage) :
    List LiveTweet × Nat :=
  recentTweetsLoop fetchPage maxPages none []

/-- The `while True` pagination loop of
`OfficialTwitterAPI.get_all_tweets_since`, indexed by fuel: `some acc` when
the loop has exited with accumulator `acc` within `fuel` iterations, `none`
when it is still running.  The source has no page cap: only an absent `data`
key, a failed request, or an absent continuation token break the loop. -/
def allTweetsSinceLoop (fetchPage : Option String → Option TweetsPage) :
    Nat → Option String → List LiveTweet → Option (List LiveTweet)
  | 0, _, _ => none
  | fuel + 1, tok, acc =>
    match fetchPage tok with
    | none => some acc
    | some page =>
      match page.data with
      | none => some acc
      | some items =>
        match page.nextToken with
        | none => some (acc ++ items)
        | some t => allTweetsSinceLoop fetchPage fuel (some t) (acc ++ items)

/-- A backend stub whose every page response carries a non-empty continuation
token (and a present `data` key). -/
def alwaysTokenBackend : Option String → Option TweetsPage :=
  fun _ => some { data := some [], nextToken := some "next" }

/-! ## Cache-first controller (`twitter_live_api.py`, `TwitterLiveAPI`),
production path.  The live fetch performed through the adapter is a
parameter: `Except` captures a raised exception. -/

/-- The cache-serve guard of `TwitterLiveAPI.get_recent_tweets`
(`twitter_live_api.py:157-164`): no force-refresh, store connected, cache age
strictly below the 15-minute TTL, and a non-empty stored result (fetched with
`limit=3200`). -/
def useTweetsCache (db : DB) (uid : String) (forceRefresh : Bool) (now : ℚ) :
    Bool :=
  !forceRefresh && db.connected
    && decide (getCacheAge db uid "recent_tweets" now < 15)
    && !(getSavedTweets db uid 3200).isEmpty

/-- The fetch branch of `TwitterLiveAPI.get_recent_tweets`
(`twitter_live_api.py:166-212`): on a non-empty fetched list, persist
(insert-only) and return it; on an empty list or a raised exception, fall
back to the stored tweets (limited to `max_results`), or `[]` when the store
is disconnected.  The development-only CSV export is out of scope. -/
def recentTweetsFetchPath (db : DB) (uid : String) (maxResults : Nat)
    (fetch : Except String (List LiveTweet)) (now : ℚ) : DB × List LiveTweet :=
  match fetch with
  | .ok allTweets =>
    if !allTweets.isEmpty then
      let db' :=
        if db.connected then
          let db1 := (saveLiveTweets db uid allTweets now).1
          (saveLiveApiResponse db1 uid "recent_tweets" allTweets.length now).1
        else db
      (db', allTweets)
    else (db, if db.connected then getSavedTweets db uid maxResults else [])
  | .error _ => (db, if db.connected then getSavedTweets db uid maxResults else [])

/-- `TwitterLiveAPI.get_recent_tweets`, production path. -/
def liveGetRecentTweets (db : DB) (uid : String) (maxResults : Nat)
    (forceRefresh : Bool) (fetch : Except String (List LiveTweet)) (now : ℚ) :
    DB × List LiveTweet :=
  if useTweetsCache db uid forceRefresh now then (db, getSavedTweets db uid 3200)
  else recentTweetsFetchPath db uid maxResults fetch now

/-- An adapter followers/following result: `{'data': [...], 'meta':
{'result_count': n}}`. -/
structure UsersPage where
  data : List ConnUser
  resultCount : Nat
deriving DecidableEq

/-- The cache-serve guard of `TwitterLiveAPI.get_followers` /
`get_following` (`twitter_live_api.py:325-331, 387-393`): additionally
requires no pagination token, and uses the 60-minute TTL. -/
def useConnectionsCache (db : DB) (uid : String) (connType : String)
    (forceRefresh : Bool) (paginationToken : Option String) (now : ℚ) : Bool :=
  !forceRefresh && paginationToken.isNone && db.connected
    && decide (getCacheAge db uid connType now < 60)
    && !(getSavedConnections db uid connType 1000).isEmpty

/-- The store fallback shared by the empty-result and exception branches of
`get_followers` / `get_following`: the stored connections wrapped in the API
shape when non-empty, `None` otherwise (also when disconnected). -/
def connectionsFallback (db : DB) (uid : String) (connType : String) :
    DB × Option UsersPage :=
  if db.connected then
    let cached := getSavedConnections db uid connType 1000
    if !cached.isEmpty then (db, some ⟨cached, cached.length⟩) else (db, none)
  else (db, none)

/-- The fetch branch of `get_followers` / `get_following`
(`twitter_live_api.py:333-358, 395-420`): a result carrying a `data` key is
persisted (full overwrite, first page only) and returned; a `None` result, a
result without `data`, or a raised exception falls back to the store. -/
def connectionsFetchPath (db : DB) (uid : String) (connType : String)
    (paginationToken : Option String)
    (fetch : Except String (Option UsersPage)) (now : ℚ) :
    DB × Option UsersPage :=
  match fetch with
  | .ok (some page) =>
    let db' :=
      if db.connected && paginationToken.isNone then
        let db1 := (saveLiveConnections db uid page.data connType now).1
        (saveLiveApiResponse db1 uid connType page.data.length now).1
      else db
    (db', some page)
  | .ok none => connectionsFallback db uid connType
  | .error _ => connectionsFallback db uid connType

/-- `TwitterLiveAPI.get_followers` / `get_following`, production path,
parameterized by the relation type (`"followers"` or `"following"`) — the two
methods are textually identical up to that string. -/
def liveGetConnections (db : DB) (uid : String) (connType : String)
    (paginationToken : Option String) (forceRefresh : Bool)
    (fetch : Except String (Option UsersPage)) (now : ℚ) :
    DB × Option UsersPage :=
  if useConnectionsCache db uid connType forceRefresh paginationToken now then
    let cached := getSavedConnections db uid connType 1000
    (db, some ⟨cached, cached.length⟩)
  else connectionsFetchPath db uid connType paginationToken fetch now

/-! ## Reconciliation engine (`advanced_analyzer.py`,
`AdvancedTwitterAnalytics.analyze_network_quality`) -/

/-- The result dict of `analyze_network_quality`, together with the derived
quantities the claims speak about. -/
structure NetworkQuality where
  mutualIds : Finset String
  notFollowingBack : Finset String
  notFollowedBack : Finset String
  reciprocityRate : ℚ
  followerRatio : ℚ
  qualityScore : ℚ
deriving DecidableEq

/-- `AdvancedTwitterAnalytics.analyze_network_quality`, computational core:
inputs are the `accountId` lists read off the archive records (the source's
set comprehensions become `List.toFinset`); `None` when both lists are empty
(the early `return`).  `reciprocity_rate` and `follower_ratio` divide by the
*list* length `len(following)`, which equals `|G|` on duplicate-free input. -/
def analyzeNetworkQuality (followers following : List String) :
    Option NetworkQuality :=
  if followers.isEmpty && following.isEmpty then none
  else
    let followerIds := followers.toFinset
    let followingIds := following.toFinset
    let mutualIds := followerIds ∩ followingIds
    let reciprocityRate : ℚ :=
      if !following.isEmpty then mutualIds.card / following.length * 100 else 0
    let followerRatio : ℚ :=
      if !following.isEmpty then followers.length / following.length else 0
    let qualityScore : ℚ :=
      min reciprocityRate 50 + min (followerRatio * 20) 30
        + min ((mutualIds.card : ℚ) / 10 * 20) 20
    some
      { mutualIds := mutualIds
        notFollowingBack := followerIds \ followingIds
        notFollowedBack := followingIds \ followerIds
        reciprocityRate := reciprocityRate
        followerRatio := followerRatio
        qualityScore := qualityScore }

/-! ## Helper lemmas -/

theorem mongoLimit_eq_nil_iff (n : Nat) (l : List α) :
    mongoLimit n l = [] ↔ l = [] := by
  unfold mongoLimit
  split
  · exact Iff.rfl
  · rw [List.take_eq_nil_iff]
    exact ⟨fun h => h.elim (fun h0 => absurd h0 ‹¬n = 0›) id, Or.inr⟩

theorem mongoLimit_of_length_le (n : Nat) (l : List α) (h : l.length ≤ n) :
    mongoLimit n l = l := by
  unfold mongoLimit
  split
  · rfl
  · exact List.take_of_length_le h

theorem insertionSort_eq_nil_iff (r : α → α → Prop) [DecidableRel r]
    (l : List α) : List.insertionSort r l = [] ↔ l = [] := by
  constructor
  · intro h
    have := List.length_insertionSort r l
    rw [h] at this
    exact List.eq_nil_of_length_eq_zero this.symm
  · intro h; rw [h]; rfl

/-! ## Claim theorems -/

/-- C7: for every pair of duplicate-free identifier lists (i.e. identifier
sets) `F` (followers) and `G` (following), at least one non-empty, the
reconciliation computes `mutual = F ∩ G`, `fans = F − G`,
`not_followed_back = G − F`, with `reciprocity_rate = |mutual| / |G| × 100`
and `follower_ratio = |F| / |G|`, both `0` when `G` is empty. -/
theorem network_reconciliation_set_algebra (followers following : List String)
    (hF : followers.Nodup) (hG : following.Nodup)
    (hne : followers ≠ [] ∨ following ≠ []) :
    ∃ r, analyzeNetworkQuality followers following = some r ∧
      r.mutualIds = followers.toFinset ∩ following.toFinset ∧
      r.notFollowingBack = followers.toFinset \ following.toFinset ∧
      r.notFollowedBack = following.toFinset \ followers.toFinset ∧
      (following = [] → r.reciprocityRate = 0 ∧ r.followerRatio = 0) ∧
      (following ≠ [] →
        r.reciprocityRate =
          (r.mutualIds.card : ℚ) / (following.toFinset.card : ℚ) * 100 ∧
        r.followerRatio =
          (followers.toFinset.card : ℚ) / (following.toFinset.card : ℚ)) := by
  have hguard : (followers.isEmpty && following.isEmpty) = false := by
    rcases hne with h | h
    · simp [List.isEmpty_iff, h]
    · simp only [List.isEmpty_iff, h, Bool.and_eq_false_iff]
      right
      simpa [List.isEmpty_iff] using h
  unfold analyzeNetworkQuality
  rw [hguard]
  refine ⟨_, rfl, rfl, rfl, rfl, ?_, ?_⟩
  · intro hGnil
    subst hGnil
    simp
  · intro hGne
    have hGe : following.isEmpty = false := by simp [List.isEmpty_iff, hGne]
    rw [hGe]
    rw [List.toFinset_card_of_nodup hF, List.toFinset_card_of_nodup hG]
    simp

/-- C8: whenever the reconciliation produces a result, the composite network
quality score equals
`min(reciprocity_rate, 50) + min(follower_ratio × 20, 30) +
min(|mutual| / 10 × 20, 20)`, and that value lies in `[0, 100]`. -/
theorem network_quality_score_in_range (followers following : List String)
    (r : NetworkQuality)
    (h : analyzeNetworkQuality followers following = some r) :
    r.qualityScore = min r.reciprocityRate 50 + min (r.followerRatio * 20) 30
        + min ((r.mutualIds.card : ℚ) / 10 * 20) 20 ∧
    0 ≤ r.qualityScore ∧ r.qualityScore ≤ 100 := by
  unfold analyzeNetworkQuality at h
  split at h
  · exact absurd h (by simp)
  · rw [Option.some_inj] at h
    subst h
    refine ⟨rfl, ?_, ?_⟩
    · have h1 : (0 : ℚ) ≤
          (if !following.isEmpty then
            (((followers.toFinset ∩ following.toFinset).card : ℚ) /
              (following.length : ℚ) * 100) else 0) := by
        split
        · positivity
        · exact le_refl 0
      have h2 : (0 : ℚ) ≤
          (if !following.isEmpty then
            ((followers.length : ℚ) / (following.length : ℚ)) else 0) := by
        split
        · positivity
        · exact le_refl 0
      have h3 : (0 : ℚ) ≤
          ((followers.toFinset ∩ following.toFinset).card : ℚ) / 10 * 20 := by
        positivity
      refine add_nonneg (add_nonneg ?_ ?_) ?_
      · exact le_min h1 (by norm_num)
      · exact le_min (by nlinarith) (by norm_num)
      · exact le_min h3 (by norm_num)
    · have := min_le_right
        (if !following.isEmpty then
          (((followers.toFinset ∩ following.toFinset).card : ℚ) /
            (following.length : ℚ) * 100) else 0) (50 : ℚ)
      have h2 := min_le_right
        ((if !following.isEmpty then
          ((followers.length : ℚ) / (following.length : ℚ)) else 0) * 20) (30 : ℚ)
      have h3 := min_le_right
        (((followers.toFinset ∩ following.toFinset).card : ℚ) / 10 * 20) (20 : ℚ)
      dsimp only [NetworkQuality.qualityScore]
      linarith

/-- Witness for C7 at the spec's example `F = {A,B,C}`, `G = {B,C,D}`:
mutual `{B,C}` (size 2), fans `{A}`, not-followed-back `{D}`,
reciprocity rate `2/3 × 100`. -/
theorem network_reconciliation_set_algebra_witness :
    ∃ r, analyzeNetworkQuality ["A", "B", "C"] ["B", "C", "D"] = some r ∧
      r.mutualIds = {"B", "C"} ∧ r.mutualIds.card = 2 ∧
      r.notFollowingBack = {"A"} ∧ r.notFollowedBack = {"D"} ∧
      r.reciprocityRate = 200 / 3 := by
  obtain ⟨r, hr, hm, hfans, hnfb, -, hrates⟩ :=
    network_reconciliation_set_algebra ["A", "B", "C"] ["B", "C", "D"]
      (by decide) (by decide) (Or.inl (by simp))
  obtain ⟨hrr, -⟩ := hrates (by simp)
  have hm2 : r.mutualIds = {"B", "C"} := by rw [hm]; decide
  refine ⟨r, hr, hm2, by rw [hm2]; decide, by rw [hfans]; decide,
    by rw [hnfb]; decide, ?_⟩
  rw [hrr, hm2]
  have h2 : ({"B", "C"} : Finset String).card = 2 := by decide
  have h3 : (["B", "C", "D"] : List String).toFinset.card = 3 := by decide
  rw [h2, h3]
  norm_num

/-- Witness for C8 at `F = [A, B]`, `G = [B]`: score `50 + 30 + 2 = 82`. -/
theorem network_quality_score_in_range_witness :
    ∃ r, analyzeNetworkQuality ["A", "B"] ["B"] = some r ∧
      r.qualityScore = 82 ∧ 0 ≤ r.qualityScore ∧ r.qualityScore ≤ 100 := by
  have h : analyzeNetworkQuality ["A", "B"] ["B"] =
      some ⟨{"B"}, {"A"}, ∅, 100, 2, 82⟩ := by
    unfold analyzeNetworkQuality
    have hm : (["A", "B"] : List String).toFinset ∩
        (["B"] : List String).toFinset = {"B"} := by decide
    have hc : ({"B"} : Finset String).card = 1 := by decide
    have hfans : (["A", "B"] : List String).toFinset \
        (["B"] : List String).toFinset = {"A"} := by decide
    have hnfb : (["B"] : List String).toFinset \
        (["A", "B"] : List String).toFinset = ∅ := by decide
    simp only [List.isEmpty_cons, Bool.false_and, Bool.false_eq_true, if_false,
      Bool.not_false, if_true, hm, hc, hfans, hnfb, List.length_cons,
      List.length_nil]
    norm_num
  exact ⟨_, h, rfl, (network_quality_score_in_range _ _ _ h).2⟩

theorem recentTweetsLoop_calls_le (fetchPage : Option String → Option TweetsPage) :
    ∀ (fuel : Nat) (tok : Option String) (acc : List LiveTweet),
      (recentTweetsLoop fetchPage fuel tok acc).2 ≤ fuel := by
  intro fuel
  induction fuel with
  | zero => intro tok acc; simp [recentTweetsLoop]
  | succ n ih =>
    intro tok acc
    unfold recentTweetsLoop
    rcases hf : fetchPage tok with - | page
    · simp
    · simp only
      rcases hd : page.data with - | items
      · simp
      · simp only
        rcases ht : page.nextToken with - | t
        · simp
        · simp only
          exact Nat.add_le_add_right (ih (some t) (acc ++ items)) 1

theorem allTweetsSinceLoop_alwaysToken :
    ∀ (n : Nat) (tok : Option String) (acc : List LiveTweet),
      allTweetsSinceLoop alwaysTokenBackend n tok acc = none := by
  intro n
  induction n with
  | zero => intro tok acc; rfl
  | succ m ih => intro tok acc; exact ih (some "next") (acc ++ [])

/-- C3 (amended): the page-capped loop of `OfficialTwitterAPI.get_recent_tweets`
issues at most `max_pages = 32` page requests for *every* backend, but the
`while True` loop of `get_all_tweets_since` carries no page cap: against a
backend whose every page response carries a non-empty continuation token it
is still running after any number of iterations, i.e. it never terminates. -/
theorem pagination_cap_only_recent_tweets :
    (∀ fetchPage : Option String → Option TweetsPage,
        (officialGetRecentTweets fetchPage).2 ≤ maxPages) ∧
    (∀ (n : Nat) (tok : Option String) (acc : List LiveTweet),
        allTweetsSinceLoop alwaysTokenBackend n tok acc = none) := by
  exact ⟨fun fetchPage => recentTweetsLoop_calls_le fetchPage maxPages none [],
    allTweetsSinceLoop_alwaysToken⟩

/-- Counterexample to C3 as stated: against the always-token backend the
`get_all_tweets_since` loop has not terminated after `max_pages + 1 = 33`
iterations (nor after 500), refuting "terminate after at most the configured
hard page cap [32 pages]" for that pagination loop. -/
theorem pagination_cap_counterexample :
    allTweetsSinceLoop alwaysTokenBackend (maxPages + 1) none [] = none ∧
    allTweetsSinceLoop alwaysTokenBackend 500 none [] = none :=
  ⟨allTweetsSinceLoop_alwaysToken (maxPages + 1) none [],
    allTweetsSinceLoop_alwaysToken 500 none []⟩

theorem refreshAccessToken_no_credential
    (refreshOutcome : String → Option OAuthTokens) (api : OApiState)
    (h : api.refreshToken = none) :
    refreshAccessToken refreshOutcome api = (api, false, 0) := by
  unfold refreshAccessToken
  rw [h]

theorem refreshAccessToken_fail
    (refreshOutcome : String → Option OAuthTokens) (api : OApiState)
    (rt : String) (h : api.refreshToken = some rt)
    (hf : refreshOutcome rt = none) :
    refreshAccessToken refreshOutcome api = (api, false, 1) := by
  unfold refreshAccessToken
  rw [h]
  simp only [hf]

theorem refreshAccessToken_ok
    (refreshOutcome : String → Option OAuthTokens) (api : OApiState)
    (rt : String) (toks : OAuthTokens) (h : api.refreshToken = some rt)
    (hf : refreshOutcome rt = some toks) :
    refreshAccessToken refreshOutcome api =
      (⟨toks.accessToken, some (toks.refreshToken.getD rt)⟩, true, 1) := by
  unfold refreshAccessToken
  rw [h]
  simp only [hf]

/-- C9: on a 401 response, `_make_request` performs at most one
refresh-and-retry; with no refresh credential it returns `None` untouched and
performs zero refresh calls; a failing refresh yields `None` after exactly one
refresh call; a successful refresh yields exactly one retried request — whose
outcome passes through `finishResponse`, so even a second 401 produces `None`
with no further refresh attempt. -/
theorem make_request_single_refresh {α : Type}
    (send : String → Except String (HttpResponse α))
    (refreshOutcome : String → Option OAuthTokens) (api : OApiState)
    (resp : HttpResponse α)
    (hsend : send api.accessToken = .ok resp) (h401 : resp.status = 401) :
    (makeRequest send refreshOutcome api).2.2 ≤ 1 ∧
    (api.refreshToken = none →
      makeRequest send refreshOutcome api = (api, none, 0)) ∧
    (∀ rt, api.refreshToken = some rt → refreshOutcome rt = none →
      makeRequest send refreshOutcome api = (api, none, 1)) ∧
    (∀ rt toks, api.refreshToken = some rt → refreshOutcome rt = some toks →
      makeRequest send refreshOutcome api =
        (⟨toks.accessToken, some (toks.refreshToken.getD rt)⟩,
          (match send toks.accessToken with
           | .error _ => none
           | .ok resp2 => finishResponse resp2), 1)) := by
  have hbase : makeRequest send refreshOutcome api =
      (if (refreshAccessToken refreshOutcome api).2.1 = true then
        match send (refreshAccessToken refreshOutcome api).1.accessToken with
        | .error _ => ((refreshAccessToken refreshOutcome api).1, none,
            (refreshAccessToken refreshOutcome api).2.2)
        | .ok resp2 => ((refreshAccessToken refreshOutcome api).1,
            finishResponse resp2, (refreshAccessToken refreshOutcome api).2.2)
      else ((refreshAccessToken refreshOutcome api).1, none,
        (refreshAccessToken refreshOutcome api).2.2)) := by
    unfold makeRequest
    rw [hsend]
    simp only [if_pos h401]
  have c2 : api.refreshToken = none →
      makeRequest send refreshOutcome api = (api, none, 0) := by
    intro h
    rw [hbase, refreshAccessToken_no_credential refreshOutcome api h]
    simp
  have c3 : ∀ rt, api.refreshToken = some rt → refreshOutcome rt = none →
      makeRequest send refreshOutcome api = (api, none, 1) := by
    intro rt hrt hfail
    rw [hbase, refreshAccessToken_fail refreshOutcome api rt hrt hfail]
    simp
  have c4 : ∀ rt toks, api.refreshToken = some rt →
      refreshOutcome rt = some toks →
      makeRequest send refreshOutcome api =
        (⟨toks.accessToken, some (toks.refreshToken.getD rt)⟩,
          (match send toks.accessToken with
           | .error _ => none
           | .ok resp2 => finishResponse resp2), 1) := by
    intro rt toks hrt hok
    rw [hbase, refreshAccessToken_ok refreshOutcome api rt toks hrt hok]
    simp only [if_pos rfl]
    rcases send toks.accessToken with - | resp2 <;> rfl
  refine ⟨?_, c2, c3, c4⟩
  rcases hrt : api.refreshToken with - | rt
  · rw [c2 hrt]; exact Nat.zero_le 1
  · rcases hro : refreshOutcome rt with - | toks
    · rw [c3 rt hrt hro]
    · rw [c4 rt toks hrt hro]

/-- Backend stub for the C9 witness: every request, including the retried
one, answers 401. -/
def stubSend401 : String → Except String (HttpResponse Nat) :=
  fun _ => .ok { status := 401, json := 0 }

/-- Refresh stub for the C9 witness: the refresh succeeds. -/
def stubRefreshOk : String → Option OAuthTokens :=
  fun _ => some { accessToken := "fresh", refreshToken := none }

/-- Adapter credential state for the C9 witness. -/
def stubApi : OApiState := { accessToken := "stale", refreshToken := some "r1" }

/-- Witness for C9: a 401 first response, a successful refresh, and a retried
request that 401s again produce exactly one refresh attempt and a `None`
result. -/
theorem make_request_single_refresh_witness :
    stubSend401 stubApi.accessToken = .ok { status := 401, json := 0 } ∧
    makeRequest stubSend401 stubRefreshOk stubApi =
      ({ accessToken := "fresh", refreshToken := some "r1" }, none, 1) := by
  refine ⟨rfl, ?_⟩
  have h := (make_request_single_refresh stubSend401 stubRefreshOk stubApi
      { status := 401, json := 0 } rfl rfl).2.2.2 "r1"
      { accessToken := "fresh", refreshToken := none } rfl rfl
  rw [h]
  rfl

theorem useTweetsCache_eq_false_of_stale (db : DB) (uid : String)
    (forceRefresh : Bool) (now : ℚ)
    (h : 15 ≤ getCacheAge db uid "recent_tweets" now) :
    useTweetsCache db uid forceRefresh now = false := by
  unfold useTweetsCache
  rw [decide_eq_false (not_lt.mpr h)]
  simp

theorem useConnectionsCache_eq_false_of_stale (db : DB) (uid connType : String)
    (forceRefresh : Bool) (paginationToken : Option String) (now : ℚ)
    (h : 60 ≤ getCacheAge db uid connType now) :
    useConnectionsCache db uid connType forceRefresh paginationToken now
      = false := by
  unfold useConnectionsCache
  rw [decide_eq_false (not_lt.mpr h)]
  simp

theorem liveGetRecentTweets_stale (db : DB) (uid : String) (maxResults : Nat)
    (forceRefresh : Bool) (fetch : Except String (List LiveTweet)) (now : ℚ)
    (h : 15 ≤ getCacheAge db uid "recent_tweets" now) :
    liveGetRecentTweets db uid maxResults forceRefresh fetch now =
      recentTweetsFetchPath db uid maxResults fetch now := by
  unfold liveGetRecentTweets
  rw [useTweetsCache_eq_false_of_stale db uid forceRefresh now h]
  rfl

theorem liveGetConnections_stale (db : DB) (uid connType : String)
    (paginationToken : Option String) (forceRefresh : Bool)
    (fetch : Except String (Option UsersPage)) (now : ℚ)
    (h : 60 ≤ getCacheAge db uid connType now) :
    liveGetConnections db uid connType paginationToken forceRefresh fetch now =
      connectionsFetchPath db uid connType paginationToken fetch now := by
  unfold liveGetConnections
  rw [useConnectionsCache_eq_false_of_stale db uid connType forceRefresh
    paginationToken now h]
  rfl

theorem useTweetsCache_fresh (db : DB) (uid : String) (forceRefresh : Bool)
    (now : ℚ) (h : useTweetsCache db uid forceRefresh now = true) :
    getCacheAge db uid "recent_tweets" now < 15 := by
  unfold useTweetsCache at h
  simp only [Bool.and_eq_true, decide_eq_true_eq] at h
  exact h.1.2

theorem useConnectionsCache_fresh (db : DB) (uid connType : String)
    (forceRefresh : Bool) (paginationToken : Option String) (now : ℚ)
    (h : useConnectionsCache db uid connType forceRefresh paginationToken now
      = true) :
    getCacheAge db uid connType now < 60 := by
  unfold useConnectionsCache at h
  simp only [Bool.and_eq_true, decide_eq_true_eq] at h
  exact h.1.2

/-- C2: for every cache-first read, data at the TTL boundary is stale — when
the cache age is at least the class TTL (15 minutes for recent tweets, 60
minutes for followers/following) the controller takes the live-fetch path, and
conversely the cache-serve guard succeeds only when the age is strictly below
the TTL. -/
theorem ttl_boundary_inclusive (db : DB) (uid : String) (now : ℚ) :
    (∀ (maxResults : Nat) (forceRefresh : Bool)
        (fetch : Except String (List LiveTweet)),
      15 ≤ getCacheAge db uid "recent_tweets" now →
      liveGetRecentTweets db uid maxResults forceRefresh fetch now =
        recentTweetsFetchPath db uid maxResults fetch now) ∧
    (∀ (connType : String) (paginationToken : Option String)
        (forceRefresh : Bool) (fetch : Except String (Option UsersPage)),
      60 ≤ getCacheAge db uid connType now →
      liveGetConnections db uid connType paginationToken forceRefresh fetch now
        = connectionsFetchPath db uid connType paginationToken fetch now) ∧
    (∀ forceRefresh, useTweetsCache db uid forceRefresh now = true →
      getCacheAge db uid "recent_tweets" now < 15) ∧
    (∀ connType forceRefresh paginationToken,
      useConnectionsCache db uid connType forceRefresh paginationToken now
        = true →
      getCacheAge db uid connType now < 60) :=
  ⟨fun maxResults forceRefresh fetch h =>
      liveGetRecentTweets_stale db uid maxResults forceRefresh fetch now h,
    fun connType paginationToken forceRefresh fetch h =>
      liveGetConnections_stale db uid connType paginationToken forceRefresh
        fetch now h,
    fun forceRefresh h => useTweetsCache_fresh db uid forceRefresh now h,
    fun connType forceRefresh paginationToken h =>
      useConnectionsCache_fresh db uid connType forceRefresh paginationToken
        now h⟩

/-- Store state for the C2 witness: cache metadata stamped at minute 0 for
both data classes, evaluated at `now = TTL` exactly. -/
def ttlDb : DB :=
  { connected := true
    users := []
    userData := []
    tweets := []
    connections := []
    apiCache := [⟨"u", "recent_tweets", 0, some 0⟩, ⟨"u", "followers", 0, some 0⟩] }

/-- Witness for C2: at age exactly 15 (recent tweets) and exactly 60
(followers) the controller takes the live-fetch path. -/
theorem ttl_boundary_inclusive_witness :
    getCacheAge ttlDb "u" "recent_tweets" 15 = 15 ∧
    getCacheAge ttlDb "u" "followers" 60 = 60 ∧
    liveGetRecentTweets ttlDb "u" 100 false (.error "down") 15 =
      recentTweetsFetchPath ttlDb "u" 100 (.error "down") 15 ∧
    liveGetConnections ttlDb "u" "followers" none false (.error "down") 60 =
      connectionsFetchPath ttlDb "u" "followers" none (.error "down") 60 := by
  have h1 : getCacheAge ttlDb "u" "recent_tweets" 15 = 15 := by
    simp [getCacheAge, ttlDb, findLatestBy, dateTimeMin, List.find?]
  have h2 : getCacheAge ttlDb "u" "followers" 60 = 60 := by
    simp [getCacheAge, ttlDb, findLatestBy, dateTimeMin, List.find?]
  exact ⟨h1, h2,
    (ttl_boundary_inclusive ttlDb "u" 15).1 100 false (.error "down") (le_of_eq h1.symm),
    (ttl_boundary_inclusive ttlDb "u" 60).2.1 "followers" none false (.error "down")
      (le_of_eq h2.symm)⟩

theorem findLatestBy_mem (ts : α → Option ℚ) (l : List α) (a : α)
    (h : findLatestBy ts l = some a) : a ∈ l := by
  induction l with
  | nil => simp [findLatestBy] at h
  | cons b t ih =>
    unfold findLatestBy at h
    rcases hf : findLatestBy ts t with - | c
    · rw [hf] at h
      simp only [Option.some_inj] at h
      cases h
      exact List.mem_cons_self _ _
    · rw [hf] at h
      simp only at h
      split at h
      · simp only [Option.some_inj] at h
        cases h
        exact List.mem_cons_self _ _
      · simp only [Option.some_inj] at h
        cases h
        exact List.mem_cons_of_mem b (ih hf)

theorem getCacheAge_disconnected (db : DB) (uid endpoint : String) (now : ℚ)
    (h : db.connected = false) : getCacheAge db uid endpoint now = 999999 := by
  unfold getCacheAge
  rw [h]
  rfl

theorem getCacheAge_unknown_tweets (db : DB) (uid : String) (now : ℚ)
    (hconn : db.connected = true)
    (hupd : ∀ d ∈ db.tweets, d.userId = uid → d.updatedAt = none)
    (hmeta : ∀ c ∈ db.apiCache,
      ¬(c.userId = uid ∧ c.endpoint = "recent_tweets")) :
    getCacheAge db uid "recent_tweets" now = 999999 := by
  have hlu : (match findLatestBy (fun d => d.updatedAt)
      (db.tweets.filter (fun d => d.userId == uid)) with
      | some d => d.updatedAt
      | none => none) = (none : Option ℚ) := by
    rcases hf : findLatestBy (fun d => d.updatedAt)
        (db.tweets.filter (fun d => d.userId == uid)) with - | d
    · rw [hf]
    · rw [hf]
      have hd := findLatestBy_mem _ _ _ hf
      rw [List.mem_filter] at hd
      exact hupd d hd.1 (by simpa using hd.2)
  have hfind : db.apiCache.find?
      (fun c => c.userId == uid && c.endpoint == "recent_tweets") = none := by
    rw [List.find?_eq_none]
    intro c hc hp
    simp only [Bool.and_eq_true, beq_iff_eq] at hp
    exact hmeta c hc hp
  unfold getCacheAge
  rw [hconn]
  simp only [Bool.not_true, Bool.false_eq_true, if_false, beq_self_eq_true,
    if_true, hlu, hfind]

theorem getCacheAge_unknown_connections (db : DB) (uid connType : String)
    (now : ℚ) (hct : connType = "followers" ∨ connType = "following")
    (hconn : db.connected = true)
    (hupd : ∀ d ∈ db.connections,
      d.userId = uid → d.type = connType → d.updatedAt = none)
    (hmeta : ∀ c ∈ db.apiCache, ¬(c.userId = uid ∧ c.endpoint = connType)) :
    getCacheAge db uid connType now = 999999 := by
  have hlu : (match findLatestBy (fun d => d.updatedAt)
      (db.connections.filter (fun d => d.userId == uid && d.type == connType)) with
      | some d => d.updatedAt
      | none => none) = (none : Option ℚ) := by
    rcases hf : findLatestBy (fun d => d.updatedAt)
        (db.connections.filter (fun d => d.userId == uid && d.type == connType))
        with - | d
    · rw [hf]
    · rw [hf]
      have hd := findLatestBy_mem _ _ _ hf
      rw [List.mem_filter] at hd
      have hd2 := hd.2
      simp only [Bool.and_eq_true, beq_iff_eq] at hd2
      exact hupd d hd.1 hd2.1 hd2.2
  have hfind : db.apiCache.find?
      (fun c => c.userId == uid && c.endpoint == connType) = none := by
    rw [List.find?_eq_none]
    intro c hc hp
    simp only [Bool.and_eq_true, beq_iff_eq] at hp
    exact hmeta c hc hp
  rcases hct with rfl | rfl <;>
  · unfold getCacheAge
    rw [hconn]
    simp only [Bool.not_true, Bool.false_eq_true, if_false, beq_self_eq_true,
      if_true, Bool.or_true, Bool.true_or, hlu, hfind]
    simp

/-- C10: whenever the store is disconnected, or no stored record of the
`(user_id, endpoint)` data class carries an `updated_at` timestamp and no
fallback `api_cache` metadata entry exists, `get_cache_age` returns the
sentinel `999999` minutes; and a sentinel-aged cache is never served — both
cache-first controllers take the live-fetch path at that age. -/
theorem cache_age_unknown_sentinel (db : DB) (uid : String) (now : ℚ) :
    (∀ endpoint, db.connected = false →
      getCacheAge db uid endpoint now = 999999) ∧
    (db.connected = true →
      (∀ d ∈ db.tweets, d.userId = uid → d.updatedAt = none) →
      (∀ c ∈ db.apiCache, ¬(c.userId = uid ∧ c.endpoint = "recent_tweets")) →
      getCacheAge db uid "recent_tweets" now = 999999) ∧
    (∀ connType, connType = "followers" ∨ connType = "following" →
      db.connected = true →
      (∀ d ∈ db.connections,
        d.userId = uid → d.type = connType → d.updatedAt = none) →
      (∀ c ∈ db.apiCache, ¬(c.userId = uid ∧ c.endpoint = connType)) →
      getCacheAge db uid connType now = 999999) ∧
    (∀ (maxResults : Nat) (forceRefresh : Bool)
        (fetch : Except String (List LiveTweet)),
      getCacheAge db uid "recent_tweets" now = 999999 →
      liveGetRecentTweets db uid maxResults forceRefresh fetch now =
        recentTweetsFetchPath db uid maxResults fetch now) ∧
    (∀ (connType : String) (paginationToken : Option String)
        (forceRefresh : Bool) (fetch : Except String (Option UsersPage)),
      getCacheAge db uid connType now = 999999 →
      liveGetConnections db uid connType paginationToken forceRefresh fetch now
        = connectionsFetchPath db uid connType paginationToken fetch now) :=
  ⟨fun endpoint h => getCacheAge_disconnected db uid endpoint now h,
    fun hconn hupd hmeta => getCacheAge_unknown_tweets db uid now hconn hupd hmeta,
    fun connType hct hconn hupd hmeta =>
      getCacheAge_unknown_connections db uid connType now hct hconn hupd hmeta,
    fun maxResults forceRefresh fetch h =>
      liveGetRecentTweets_stale db uid maxResults forceRefresh fetch now
        (h ▸ by norm_num),
    fun connType paginationToken forceRefresh fetch h =>
      liveGetConnections_stale db uid connType paginationToken forceRefresh
        fetch now (h ▸ by norm_num)⟩

/-- A connected store with empty collections: nothing on file, so no record
carries `updated_at` and no metadata entry exists. -/
def emptyDB : DB :=
  { connected := true, users := [], userData := [], tweets := [],
    connections := [], apiCache := [] }

/-- A store whose construction-time connection failed. -/
def disconnectedDB : DB :=
  { connected := false, users := [], userData := [], tweets := [],
    connections := [], apiCache := [] }

/-- Witness for C10: a disconnected store and a connected-but-empty store
both report the sentinel age, and the controller then takes the fetch path. -/
theorem cache_age_unknown_sentinel_witness :
    getCacheAge disconnectedDB "u" "recent_tweets" 7 = 999999 ∧
    getCacheAge emptyDB "u" "recent_tweets" 7 = 999999 ∧
    getCacheAge emptyDB "u" "followers" 7 = 999999 ∧
    liveGetRecentTweets emptyDB "u" 100 false (.error "x") 7 =
      recentTweetsFetchPath emptyDB "u" 100 (.error "x") 7 := by
  have h := cache_age_unknown_sentinel emptyDB "u" 7
  have h2 := h.2.1 rfl (by simp [emptyDB]) (by simp [emptyDB])
  exact ⟨(cache_age_unknown_sentinel disconnectedDB "u" 7).1 "recent_tweets" rfl,
    h2,
    h.2.2.1 "followers" (Or.inl rfl) rfl (by simp [emptyDB]) (by simp [emptyDB]),
    h.2.2.2.1 100 false (.error "x") h2⟩

/-- C5 (amended): when the store is unreachable at construction, no
`Database` operation raises — every operation returns its inert value
untouched: collection reads (`get_saved_tweets`, `get_user_uploads`,
`get_saved_connections`) return empty lists, counting writes (`save_tweets`,
`save_live_tweets`, `save_live_connections`) return zero, `get_cache_age`
returns the sentinel, while `get_growth_data`, `get_live_api_response`,
`get_user_by_twitter_id`, `save_user_upload`, `save_live_api_response` and
`create_or_update_user` return `None` (not an empty list / not zero). -/
theorem disconnected_store_noop (db : DB) (h : db.connected = false) :
    (∀ uid limit, getSavedTweets db uid limit = []) ∧
    (∀ uid limit, getUserUploads db uid limit = []) ∧
    (∀ uid connType limit, getSavedConnections db uid connType limit = []) ∧
    (∀ uid ts now, saveTweets db uid ts now = (db, 0)) ∧
    (∀ uid ts now, saveLiveTweets db uid ts now = (db, 0)) ∧
    (∀ uid us connType now,
      saveLiveConnections db uid us connType now = (db, 0)) ∧
    (∀ uid days now, getGrowthData db uid days now = none) ∧
    (∀ uid endpoint, getLiveApiResponse db uid endpoint = none) ∧
    (∀ twitterId, getUserByTwitterId db twitterId = none) ∧
    (∀ uid endpoint now, getCacheAge db uid endpoint now = 999999) ∧
    (∀ uid data now, saveUserUpload db uid data now = (db, none)) ∧
    (∀ uid endpoint data now,
      saveLiveApiResponse db uid endpoint data now = (db, none)) ∧
    (∀ info now, createOrUpdateUser db info now = (db, none)) ∧
    isConnected db = false := by
  refine ⟨?_, ?_, ?_, ?_, ?_, ?_, ?_, ?_, ?_, ?_, ?_, ?_, ?_, h⟩ <;>
    intros <;>
    simp [getSavedTweets, getUserUploads, getSavedConnections, saveTweets,
      saveLiveTweets, saveLiveConnections, getGrowthData, getLiveApiResponse,
      getUserByTwitterId, getCacheAge, saveUserUpload, saveLiveApiResponse,
      createOrUpdateUser, h]

/-- Counterexample to C5 as stated: on a disconnected store the write
`save_user_upload` returns `None`, not zero, and the read `get_growth_data`
returns `None`, not an empty result. -/
theorem disconnected_store_counterexample :
    (saveUserUpload disconnectedDB "u" ⟨[], [], [], [], [], []⟩ 0).2 = none ∧
    (saveUserUpload disconnectedDB "u" ⟨[], [], [], [], [], []⟩ 0).2
      ≠ some 0 ∧
    getGrowthData disconnectedDB "u" 30 0 = none ∧
    getGrowthData disconnectedDB "u" 30 0 ≠ some [] := by
  refine ⟨rfl, ?_, rfl, ?_⟩ <;> decide

/-- Witness for (amended) C5 at the concrete disconnected store. -/
theorem disconnected_store_noop_witness :
    disconnectedDB.connected = false ∧
    getSavedTweets disconnectedDB "u" 100 = [] ∧
    saveTweets disconnectedDB "u" [] 0 = (disconnectedDB, 0) ∧
    saveUserUpload disconnectedDB "u" ⟨[], [], [], [], [], []⟩ 0 =
      (disconnectedDB, none) := by
  have h := disconnected_store_noop disconnectedDB rfl
  exact ⟨rfl, h.1 "u" 100, h.2.2.2.1 "u" [] 0,
    h.2.2.2.2.2.2.2.2.2.2.1 "u" ⟨[], [], [], [], [], []⟩ 0⟩

theorem tweetKey_liveTweetDoc (uid : String) (t : LiveTweet) (now : ℚ) :
    tweetKey uid t.id (liveTweetDoc uid t now) = true := by
  simp [tweetKey, liveTweetDoc]

theorem saveLiveTweetsStep_foldl (uid : String) (now : ℚ) :
    ∀ (ts : List LiveTweet) (coll : List TweetDoc) (n : Nat),
      ∃ extra : List TweetDoc,
        (ts.foldl (saveLiveTweetsStep uid now) (coll, n)).1 = coll ++ extra ∧
        (ts.foldl (saveLiveTweetsStep uid now) (coll, n)).2
          = n + extra.length ∧
        (∀ t ∈ ts, (coll ++ extra).any (tweetKey uid t.id) = true) ∧
        (∀ d ∈ extra, coll.any (tweetKey d.userId d.tweetId) = false) := by
  intro ts
  induction ts with
  | nil =>
    intro coll n
    exact ⟨[], by simp, by simp, by simp, by simp⟩
  | cons t rest ih =>
    intro coll n
    rcases hany : coll.any (tweetKey uid t.id) with - | -
    · -- key absent: the op inserts the freshly built document
      have hstep : saveLiveTweetsStep uid now (coll, n) t =
          (coll ++ [liveTweetDoc uid t now], n + 1) := by
        unfold saveLiveTweetsStep setOnInsertUpsert
        rw [hany]
        simp
      obtain ⟨extra, h1, h2, h3, h4⟩ :=
        ih (coll ++ [liveTweetDoc uid t now]) (n + 1)
      refine ⟨liveTweetDoc uid t now :: extra, ?_, ?_, ?_, ?_⟩
      · rw [List.foldl_cons, hstep, h1, List.append_assoc]
        rfl
      · rw [List.foldl_cons, hstep, h2, List.length_cons]
        omega
      · intro t' ht'
        rcases List.mem_cons.mp ht' with rfl | ht'
        · rw [List.any_append]
          have hdoc : (liveTweetDoc uid t' now :: extra).any
              (tweetKey uid t'.id) = true := by
            simp [List.any_cons, tweetKey_liveTweetDoc]
          rw [hdoc]
          simp
        · have := h3 t' ht'
          rw [List.append_assoc] at this
          simpa using this
      · intro d hd
        rcases List.mem_cons.mp hd with rfl | hd
        · simpa [liveTweetDoc] using hany
        · have := h4 d hd
          rw [List.any_append] at this
          exact (Bool.or_eq_false_iff.mp this).1
    · -- key present: the op is a no-op on the collection and the count
      have hstep : saveLiveTweetsStep uid now (coll, n) t = (coll, n) := by
        unfold saveLiveTweetsStep setOnInsertUpsert
        rw [hany]
        simp
      obtain ⟨extra, h1, h2, h3, h4⟩ := ih coll n
      refine ⟨extra, ?_, ?_, ?_, h4⟩
      · rw [List.foldl_cons, hstep, h1]
      · rw [List.foldl_cons, hstep, h2]
      · intro t' ht'
        rcases List.mem_cons.mp ht' with rfl | ht'
        · rw [List.any_append, hany]
          rfl
        · exact h3 t' ht'

/-- C1: for every connected store, user and list of live-fetched posts,
`save_live_tweets` is an insert-only upsert on the key `(user_id, tweet_id)`:
the previously stored documents survive verbatim (as a prefix, fields
untouched), the appended documents are exactly those whose key was absent,
every synced post has a document afterwards, and the returned count is
exactly the number of newly created documents. -/
theorem save_live_tweets_insert_only (db : DB) (uid : String)
    (ts : List LiveTweet) (now : ℚ) (hconn : db.connected = true) :
    ∃ newDocs : List TweetDoc,
      (saveLiveTweets db uid ts now).1.tweets = db.tweets ++ newDocs ∧
      (saveLiveTweets db uid ts now).2 = newDocs.length ∧
      (saveLiveTweets db uid ts now).1 =
        { db with tweets := db.tweets ++ newDocs } ∧
      (∀ t ∈ ts, ((db.tweets ++ newDocs).any (tweetKey uid t.id)) = true) ∧
      (∀ d ∈ newDocs, db.tweets.any (tweetKey d.userId d.tweetId) = false) := by
  rcases hts : ts.isEmpty with - | -
  · obtain ⟨extra, h1, h2, h3, h4⟩ :=
      saveLiveTweetsStep_foldl uid now ts db.tweets 0
    have hguard : (!db.connected || ts.isEmpty) = false := by
      rw [hconn, hts]
      rfl
    have heq : saveLiveTweets db uid ts now =
        ({ db with tweets :=
            (ts.foldl (saveLiveTweetsStep uid now) (db.tweets, 0)).1 },
          (ts.foldl (saveLiveTweetsStep uid now) (db.tweets, 0)).2) := by
      unfold saveLiveTweets
      rw [hguard]
      rfl
    refine ⟨extra, ?_, ?_, ?_, h3, h4⟩
    · rw [heq]
      exact h1
    · rw [heq]
      simpa using h2
    · rw [heq, h1]
  · have hnil : ts = [] := by
      cases ts with
      | nil => rfl
      | cons a l => simp [List.isEmpty] at hts
    subst hnil
    have heq2 : saveLiveTweets db uid [] now = (db, 0) := by
      unfold saveLiveTweets
      simp
    refine ⟨[], by rw [heq2]; simp, by rw [heq2]; rfl, by rw [heq2]; simp,
      by simp, by simp⟩

/-- Stored document of the C1 witness: post `p1` on file with
`favorite_count = 10`. -/
def p1doc : TweetDoc :=
  { TweetDoc.empty with
    userId := "u", tweetId := some "p1", fullText := some "old text",
    favoriteCount := some 10 }

/-- Live record of the C1 witness: `p1` re-fetched carrying
`like_count = 50`. -/
def p1liveNew : LiveTweet :=
  { id := some "p1", text := some "old text", createdAt := none,
    metrics := ⟨50, 0, 0, 0, 0, 0⟩ }

/-- Live record of the C1 witness: the new post `p2`. -/
def p2live : LiveTweet :=
  { id := some "p2", text := some "fresh", createdAt := none,
    metrics := ⟨1, 0, 0, 0, 0, 0⟩ }

/-- Store of the C1 witness: connected, holding exactly `p1`. -/
def c1DB : DB :=
  { connected := true, users := [], userData := [], tweets := [p1doc],
    connections := [], apiCache := [] }

/-- Witness for C1: syncing `[p1 (like 50), p2]` against a store holding `p1`
(like 10) leaves `p1`'s document byte-identical (like still 10), adds exactly
the one new document, and reports count 1. -/
theorem save_live_tweets_insert_only_witness :
    c1DB.connected = true ∧
    (∃ newDocs : List TweetDoc,
      (saveLiveTweets c1DB "u" [p1liveNew, p2live] 5).1.tweets =
        c1DB.tweets ++ newDocs ∧
      (saveLiveTweets c1DB "u" [p1liveNew, p2live] 5).2 = newDocs.length) ∧
    (saveLiveTweets c1DB "u" [p1liveNew, p2live] 5).2 = 1 ∧
    (saveLiveTweets c1DB "u" [p1liveNew, p2live] 5).1.tweets.head?
      = some p1doc ∧
    p1doc.favoriteCount = some 10 := by
  obtain ⟨newDocs, h1, h2, -, -, -⟩ :=
    save_live_tweets_insert_only c1DB "u" [p1liveNew, p2live] 5 rfl
  exact ⟨rfl, ⟨newDocs, h1, h2⟩, by decide, by decide, rfl⟩

section UpsertLemmas

variable {α : Type} [DecidableEq α] (p : α → Bool) (f : α → α)

theorem updateFirst_eq_none_iff (l : List α) :
    updateFirst p f l = none ↔ l.any p = false := by
  induction l with
  | nil => simp [updateFirst]
  | cons a t ih =>
    rcases hp : p a with - | -
    · simp [updateFirst, hp, ih]
    · simp [updateFirst, hp]

theorem updateFirst_length (l l' : List α) (c : Bool)
    (h : updateFirst p f l = some (l', c)) : l'.length = l.length := by
  induction l generalizing l' c with
  | nil => simp [updateFirst] at h
  | cons a t ih =>
    unfold updateFirst at h
    rcases hp : p a with - | -
    · rw [hp] at h
      simp only [Bool.false_eq_true, if_false, Option.map_eq_some'] at h
      obtain ⟨⟨t', c'⟩, ht', heq⟩ := h
      cases heq
      simpa using ih t' c' ht'
    · rw [hp] at h
      simp only [if_true] at h
      cases h
      simp

theorem updateFirst_countP (l l' : List α) (c : Bool)
    (Hf : ∀ a, p a = true → p (f a) = true)
    (h : updateFirst p f l = some (l', c)) : l'.countP p = l.countP p := by
  induction l generalizing l' c with
  | nil => simp [updateFirst] at h
  | cons a t ih =>
    unfold updateFirst at h
    rcases hp : p a with - | -
    · rw [hp] at h
      simp only [Bool.false_eq_true, if_false, Option.map_eq_some'] at h
      obtain ⟨⟨t', c'⟩, ht', heq⟩ := h
      cases heq
      rw [List.countP_cons, List.countP_cons, hp, ih t' c' ht']
    · rw [hp] at h
      simp only [if_true] at h
      cases h
      rw [List.countP_cons, List.countP_cons, hp, Hf a hp]

theorem updateFirst_mem_p (l l' : List α) (c : Bool)
    (h1 : l.countP p ≤ 1) (h : updateFirst p f l = some (l', c)) :
    ∀ d ∈ l', p d = true → ∃ x, p x = true ∧ d = f x := by
  induction l generalizing l' c with
  | nil => simp [updateFirst] at h
  | cons a t ih =>
    unfold updateFirst at h
    rcases hp : p a with - | -
    · rw [hp] at h
      simp only [Bool.false_eq_true, if_false, Option.map_eq_some'] at h
      obtain ⟨⟨t', c'⟩, ht', heq⟩ := h
      cases heq
      intro d hd hpd
      rcases List.mem_cons.mp hd with rfl | hd
      · exact absurd hpd (by simp [hp])
      · have h1t : t.countP p ≤ 1 := by
          rw [List.countP_cons, hp] at h1
          simpa using h1
        exact ih t' c' h1t ht' d hd hpd
    · rw [hp] at h
      simp only [if_true] at h
      cases h
      intro d hd hpd
      rcases List.mem_cons.mp hd with rfl | hd
      · exact ⟨a, hp, rfl⟩
      · exfalso
        rw [List.countP_cons, hp] at h1
        simp only [if_pos] at h1
        have ht0 : t.countP p = 0 := by omega
        rw [List.countP_eq_zero] at ht0
        exact ht0 d hd hpd

theorem setUpsert_countP (ins : α) (l : List α)
    (Hf : ∀ a, p a = true → p (f a) = true) (Hins : p ins = true)
    (h1 : l.countP p ≤ 1) : ((setUpsert p f ins l).1).countP p = 1 := by
  unfold setUpsert
  rcases h : updateFirst p f l with - | ⟨l', c⟩
  · show (l ++ [ins]).countP p = 1
    have hany := (updateFirst_eq_none_iff p f l).mp h
    have hzero : l.countP p = 0 := by
      rw [List.countP_eq_zero]
      intro a ha hpa
      rw [List.any_eq_false] at hany
      exact hany a ha hpa
    simp [List.countP_append, hzero, List.countP_cons, Hins]
  · show l'.countP p = 1
    have hpos : 0 < l.countP p := by
      rcases hany : l.any p with - | -
      · rw [(updateFirst_eq_none_iff p f l).mpr hany] at h
        exact absurd h (by simp)
      · rw [List.any_eq_true] at hany
        obtain ⟨a, ha, hpa⟩ := hany
        exact List.countP_pos_iff.mpr ⟨a, ha, hpa⟩
    have := updateFirst_countP p f l l' c Hf h
    omega

theorem setUpsert_mem (ins : α) (l : List α) (h1 : l.countP p ≤ 1) :
    ∀ d ∈ (setUpsert p f ins l).1, p d = true →
      (∃ x, p x = true ∧ d = f x) ∨ d = ins := by
  unfold setUpsert
  rcases h : updateFirst p f l with - | ⟨l', c⟩
  · intro d hd hpd
    have hd' : d ∈ l ++ [ins] := hd
    rcases List.mem_append.mp hd' with hd | hd
    · exfalso
      have hany := (updateFirst_eq_none_iff p f l).mp h
      rw [List.any_eq_false] at hany
      exact hany d hd hpd
    · right
      simpa using hd
  · intro d hd hpd
    have hd' : d ∈ l' := hd
    exact Or.inl (updateFirst_mem_p p f l l' c h1 h d hd' hpd)

theorem setUpsert_length_of_match (ins : α) (l : List α)
    (h : l.any p = true) : ((setUpsert p f ins l).1).length = l.length := by
  unfold setUpsert
  rcases hu : updateFirst p f l with - | ⟨l', c⟩
  · exact absurd ((updateFirst_eq_none_iff p f l).mp hu) (by simp [h])
  · show l'.length = l.length
    exact updateFirst_length p f l l' c hu

end UpsertLemmas

theorem tweetKey_applyArchiveSet (uid : String) (t : ArchiveTweet) (now : ℚ)
    (d : TweetDoc) :
    tweetKey uid t.idStr (applyArchiveSet uid t now d) = true := by
  simp [tweetKey, applyArchiveSet]

theorem saveTweets_single (db : DB) (uid : String) (e : ArchiveEntry)
    (now : ℚ) (hconn : db.connected = true) :
    saveTweets db uid [e] now =
      ({ db with tweets := (setUpsert (tweetKey uid e.tweet.idStr)
          (applyArchiveSet uid e.tweet now)
          (applyArchiveSet uid e.tweet now TweetDoc.empty) db.tweets).1 },
        (setUpsert (tweetKey uid e.tweet.idStr)
          (applyArchiveSet uid e.tweet now)
          (applyArchiveSet uid e.tweet now TweetDoc.empty) db.tweets).2) := by
  unfold saveTweets
  rw [hconn]
  simp [saveTweetsStep]

/-- C6: on a connected store whose `tweets` collection respects the unique
index (at most one document per `(user_id, tweet_id)` key), ingesting the
identical archive record twice through `save_tweets` yields exactly one
stored document for the key, adds no document on the second ingestion, and
every field the archive `$set` writes equals the last-applied payload
(`uploaded_at` stamped by the second call). -/
theorem archive_upsert_idempotent (db : DB) (uid : String) (e : ArchiveEntry)
    (now₁ now₂ : ℚ) (hconn : db.connected = true)
    (huniq : db.tweets.countP (tweetKey uid e.tweet.idStr) ≤ 1) :
    ((saveTweets (saveTweets db uid [e] now₁).1 uid [e] now₂).1.tweets.countP
        (tweetKey uid e.tweet.idStr) = 1) ∧
    ((saveTweets (saveTweets db uid [e] now₁).1 uid [e] now₂).1.tweets.length
      = (saveTweets db uid [e] now₁).1.tweets.length) ∧
    (∀ d ∈ (saveTweets (saveTweets db uid [e] now₁).1 uid [e] now₂).1.tweets,
      tweetKey uid e.tweet.idStr d = true →
      d.userId = uid ∧ d.tweetId = e.tweet.idStr ∧
      d.createdAt = e.tweet.createdAt ∧
      d.fullText = some (e.tweet.fullText.getD "") ∧
      d.favoriteCount = some e.tweet.favoriteCount ∧
      d.retweetCount = some e.tweet.retweetCount ∧
      d.isReply = some e.tweet.hasInReplyTo ∧
      d.isRetweet = some e.tweet.retweeted ∧
      d.uploadedAt = some now₂) := by
  have Hf₁ : ∀ d, tweetKey uid e.tweet.idStr d = true →
      tweetKey uid e.tweet.idStr (applyArchiveSet uid e.tweet now₁ d) = true :=
    fun d _ => tweetKey_applyArchiveSet uid e.tweet now₁ d
  have Hf₂ : ∀ d, tweetKey uid e.tweet.idStr d = true →
      tweetKey uid e.tweet.idStr (applyArchiveSet uid e.tweet now₂ d) = true :=
    fun d _ => tweetKey_applyArchiveSet uid e.tweet now₂ d
  have h1eq := saveTweets_single db uid e now₁ hconn
  have hdb1conn : (saveTweets db uid [e] now₁).1.connected = true := by
    rw [h1eq]
    exact hconn
  have h2eq := saveTweets_single (saveTweets db uid [e] now₁).1 uid e now₂
    hdb1conn
  have htw1 : (saveTweets db uid [e] now₁).1.tweets =
      (setUpsert (tweetKey uid e.tweet.idStr)
        (applyArchiveSet uid e.tweet now₁)
        (applyArchiveSet uid e.tweet now₁ TweetDoc.empty) db.tweets).1 := by
    rw [h1eq]
  have hc1 : (saveTweets db uid [e] now₁).1.tweets.countP
      (tweetKey uid e.tweet.idStr) = 1 := by
    rw [htw1]
    exact setUpsert_countP _ _ _ db.tweets Hf₁
      (tweetKey_applyArchiveSet uid e.tweet now₁ TweetDoc.empty) huniq
  have htw2 : (saveTweets (saveTweets db uid [e] now₁).1 uid [e] now₂).1.tweets
      = (setUpsert (tweetKey uid e.tweet.idStr)
          (applyArchiveSet uid e.tweet now₂)
          (applyArchiveSet uid e.tweet now₂ TweetDoc.empty)
          (saveTweets db uid [e] now₁).1.tweets).1 := by
    rw [h2eq]
  have hc2 : (saveTweets (saveTweets db uid [e] now₁).1 uid [e]
      now₂).1.tweets.countP (tweetKey uid e.tweet.idStr) = 1 := by
    rw [htw2]
    exact setUpsert_countP _ _ _ _ Hf₂
      (tweetKey_applyArchiveSet uid e.tweet now₂ TweetDoc.empty) (le_of_eq hc1)
  refine ⟨hc2, ?_, ?_⟩
  · rw [htw2]
    refine setUpsert_length_of_match _ _ _ _ ?_
    rw [List.any_eq_true]
    have := List.countP_pos_iff.mp (by rw [hc1]; norm_num)
    obtain ⟨a, ha, hpa⟩ := this
    exact ⟨a, ha, hpa⟩
  · intro d hd hpd
    rw [htw2] at hd
    have := setUpsert_mem (tweetKey uid e.tweet.idStr)
      (applyArchiveSet uid e.tweet now₂)
      (applyArchiveSet uid e.tweet now₂ TweetDoc.empty) _ (le_of_eq hc1)
      d hd hpd
    rcases this with ⟨x, -, rfl⟩ | rfl
    · exact ⟨rfl, rfl, rfl, rfl, rfl, rfl, rfl, rfl, rfl⟩
    · exact ⟨rfl, rfl, rfl, rfl, rfl, rfl, rfl, rfl, rfl⟩

/-- Archive record of the C6 witness. -/
def archiveE : ArchiveEntry :=
  ⟨{ idStr := some "t1", createdAt := some 3, fullText := some "hello",
     favoriteCount := 7, retweetCount := 2, hasInReplyTo := false,
     retweeted := true }⟩

/-- Witness for C6: ingesting `archiveE` twice into an empty connected store
leaves exactly one document for its key, with the second call adding
nothing. -/
theorem archive_upsert_idempotent_witness :
    emptyDB.connected = true ∧
    emptyDB.tweets.countP (tweetKey "u" archiveE.tweet.idStr) ≤ 1 ∧
    (saveTweets (saveTweets emptyDB "u" [archiveE] 1).1 "u" [archiveE]
        2).1.tweets.countP (tweetKey "u" archiveE.tweet.idStr) = 1 ∧
    (saveTweets (saveTweets emptyDB "u" [archiveE] 1).1 "u" [archiveE]
        2).1.tweets.length = 1 := by
  have h := archive_upsert_idempotent emptyDB "u" archiveE 1 2 rfl (by decide)
  refine ⟨rfl, by decide, h.1, ?_⟩
  rw [h.2.1]
  decide

theorem getSavedTweets_eq_nil_iff (db : DB) (uid : String) (limit : Nat) :
    getSavedTweets db uid limit = [] ↔
      db.connected = false ∨
      db.tweets.filter (fun d => d.userId == uid) = [] := by
  unfold getSavedTweets
  rcases hc : db.connected with - | -
  · simp [hc]
  · simp only [hc, Bool.not_true, Bool.false_eq_true, if_false]
    rw [List.map_eq_nil_iff, mongoLimit_eq_nil_iff, insertionSort_eq_nil_iff]
    simp

theorem getSavedTweets_perm_of_le (db : DB) (uid : String) (limit : Nat)
    (hconn : db.connected = true)
    (hlen : (db.tweets.filter (fun d => d.userId == uid)).length ≤ limit) :
    (getSavedTweets db uid limit).Perm
      ((db.tweets.filter (fun d => d.userId == uid)).map savedTweetView) := by
  unfold getSavedTweets
  simp only [hconn, Bool.not_true, Bool.false_eq_true, if_false]
  rw [mongoLimit_of_length_le _ _
    (by rw [List.length_insertionSort]; exact hlen)]
  exact (List.perm_insertionSort _ _).map savedTweetView

theorem getSavedConnections_eq_nil_iff (db : DB) (uid connType : String)
    (limit : Nat) :
    getSavedConnections db uid connType limit = [] ↔
      db.connected = false ∨
      db.connections.filter
        (fun d => d.userId == uid && d.type == connType) = [] := by
  unfold getSavedConnections
  rcases hc : db.connected with - | -
  · simp [hc]
  · simp only [hc, Bool.not_true, Bool.false_eq_true, if_false]
    rw [List.map_eq_nil_iff, mongoLimit_eq_nil_iff]
    simp

/-- C4: a live fetch that raises never propagates — the fetch-branch of
`get_recent_tweets` returns the stored posts (most-recent-first, limited to
`max_results`) whenever the store is connected, returning all of them when at
most `max_results` are on file, and an empty list exactly when the store is
empty for that user or disconnected; likewise `get_followers` /
`get_following` fall back to the stored connection records, returning `None`
only when the store holds none or is disconnected. -/
theorem live_fetch_error_fallback (db : DB) (uid : String) (maxResults : Nat)
    (err : String) (now : ℚ) :
    (recentTweetsFetchPath db uid maxResults (.error err) now =
      (db, if db.connected then getSavedTweets db uid maxResults else [])) ∧
    (db.connected = true →
      ((recentTweetsFetchPath db uid maxResults (.error err) now).2 = [] ↔
        db.tweets.filter (fun d => d.userId == uid) = [])) ∧
    (db.connected = true →
      (db.tweets.filter (fun d => d.userId == uid)).length ≤ maxResults →
      ((recentTweetsFetchPath db uid maxResults (.error err) now).2).Perm
        ((db.tweets.filter (fun d => d.userId == uid)).map savedTweetView)) ∧
    (db.connected = false →
      (recentTweetsFetchPath db uid maxResults (.error err) now).2 = []) ∧
    (∀ connType paginationToken,
      connectionsFetchPath db uid connType paginationToken (.error err) now =
        connectionsFallback db uid connType) ∧
    (∀ connType, db.connected = true →
      db.connections.filter
        (fun d => d.userId == uid && d.type == connType) ≠ [] →
      (connectionsFallback db uid connType).2 =
        some ⟨getSavedConnections db uid connType 1000,
          (getSavedConnections db uid connType 1000).length⟩) ∧
    (∀ connType,
      (db.connected = false ∨
        db.connections.filter
          (fun d => d.userId == uid && d.type == connType) = []) →
      (connectionsFallback db uid connType).2 = none) := by
  refine ⟨rfl, ?_, ?_, ?_, fun _ _ => rfl, ?_, ?_⟩
  · intro hconn
    show (if db.connected then getSavedTweets db uid maxResults else []) = []
      ↔ _
    rw [hconn, if_pos rfl, getSavedTweets_eq_nil_iff]
    simp [hconn]
  · intro hconn hlen
    show (if db.connected then getSavedTweets db uid maxResults else []).Perm _
    rw [hconn, if_pos rfl]
    exact getSavedTweets_perm_of_le db uid maxResults hconn hlen
  · intro hconn
    show (if db.connected then getSavedTweets db uid maxResults else []) = []
    rw [hconn, if_neg (by simp)]
  · intro connType hconn hne
    unfold connectionsFallback
    rw [hconn, if_pos rfl]
    have hcached : getSavedConnections db uid connType 1000 ≠ [] := by
      rw [Ne, getSavedConnections_eq_nil_iff]
      simp [hconn, hne]
    have : (getSavedConnections db uid connType 1000).isEmpty = false := by
      rcases he : (getSavedConnections db uid connType 1000).isEmpty with - | -
      · rfl
      · exact absurd (List.isEmpty_iff.mp he) hcached
    simp only [this, Bool.not_false, if_true]
  · intro connType hcase
    unfold connectionsFallback
    rcases hc : db.connected with - | -
    · rw [if_neg (by simp [hc])]
    · rw [if_pos (by simp [hc])]
      rcases hcase with hcase | hcase
      · rw [hc] at hcase
        exact absurd hcase (by simp)
      · have hcached : getSavedConnections db uid connType 1000 = [] :=
          (getSavedConnections_eq_nil_iff db uid connType 1000).mpr
            (Or.inr hcase)
        simp [hcached]

/-- The 40 previously-synced documents of the C4 witness. -/
def c4docs : List TweetDoc :=
  (List.range 40).map (fun i =>
    { TweetDoc.empty with
      userId := "u", tweetId := some (toString i), createdAt := some (i : ℚ) })

/-- Store of the C4 witness: connected, with 40 posts on file for `u`. -/
def c4DB : DB :=
  { connected := true, users := [], userData := [], tweets := c4docs,
    connections := [], apiCache := [] }

/-- Witness for C4: with 40 previously-synced posts on file, a raising live
fetch returns exactly those 40 posts (as their stored views), not an empty
result. -/
theorem live_fetch_error_fallback_witness :
    c4DB.connected = true ∧
    (c4DB.tweets.filter (fun d => d.userId == "u")).length ≤ 100 ∧
    ((recentTweetsFetchPath c4DB "u" 100 (.error "timeout") 0).2).Perm
      ((c4DB.tweets.filter (fun d => d.userId == "u")).map savedTweetView) ∧
    ((recentTweetsFetchPath c4DB "u" 100 (.error "timeout") 0).2).length = 40 ∧
    (recentTweetsFetchPath c4DB "u" 100 (.error "timeout") 0).2 ≠ [] := by
  have h := live_fetch_error_fallback c4DB "u" 100 "timeout" 0
  have hperm := h.2.2.1 rfl (by decide)
  refine ⟨rfl, by decide, hperm, ?_, ?_⟩
  · rw [hperm.length_eq]
    decide
  · intro hnil
    exact absurd ((h.2.1 rfl).mp hnil) (by decide)

end TwitterAnalytics
